import Mathlib

/-!
Shallow embedding of `src/TrendFire.py` (an Earth Engine trend pipeline
for a study area in Goa) together with theorems settling the frozen
claims about its specification.

Modelling conventions:
* A raster image is observed at one focal pixel: an `Image` carries the
  quality-band value (`qaPixel`, a natural number whose bits are flags),
  the named data bands with their rational values at that pixel
  (`bands`, an association list in band order), the validity mask at
  that pixel (`maskFlag`) and the `system:time_start` property in
  epoch milliseconds (`timeStart`).
* Server-side reductions over a region (min/max composites) are values
  the remote service returns; they enter the embedded functions as
  explicit parameters.
* Remote calls made by the pipeline (collection loads, export-task
  submissions) are reified as a trace of `EEAction` values, so that the
  claims about what a full run submits become statements about the
  trace of `main`.
-/

namespace TrendFire

/-- Coordinate components of one vertex of a ring (two components for a
2D vertex, three when a z-value is present). -/
abbrev Coord := List ℚ

/-- An Earth Engine polygon, as the list of its rings (exterior ring
first, then interior rings), each ring a list of vertices. This is the
shape `ee.Geometry.Polygon` receives from the GeoJSON coordinates in
`get_goa_boundary`. -/
abbrev Region := List (List Coord)

/-- Association list of named bands with their value at the focal pixel. -/
abbrev Bands := List (String × ℚ)

/-- One raster image observed at one focal pixel. -/
structure Image where
  qaPixel : Nat
  bands : Bands
  maskFlag : Bool
  timeStart : ℚ
deriving DecidableEq

/-- Selecting a single band by name: the first band carrying that name,
as in `image.select(name)`. -/
def getBand (image : Image) (name : String) : Option ℚ :=
  (image.bands.find? (fun p => p.1 == name)).map (fun p => p.2)

/-- Band value used inside expressions; selecting a band the image does
not carry is a remote-side error, modelled by the default value 0 (the
theorems only read bands that are present). -/
def bv (image : Image) (name : String) : ℚ :=
  (getBand image name).getD 0

/-- `image.addBands(list)`: append new bands after the existing ones. -/
def addBandsL (image : Image) (newBands : Bands) : Image :=
  { image with bands := image.bands ++ newBands }

/-- Band names matched by the regex `SR_B.` of `image.select` in
`maskL8sr` (line 136): `SR_B` followed by exactly one character. -/
def matchesOptical (name : String) : Bool :=
  name.data.take 4 == "SR_B".data && name.length == 5

/-- Band names matched by the regex `ST_B.*` of `image.select` in
`maskL8sr` (line 139): `ST_B` followed by anything. -/
def matchesThermal (name : String) : Bool :=
  name.data.take 4 == "ST_B".data

/-- Lines 120-142 of `src/TrendFire.py`: mask clouds (QA_PIXEL bits 3
and 5 must both be clear) and scale the optical and thermal bands.
The returned image keeps the QA band (the `qaPixel` field), the scaled
optical bands and the scaled thermal bands, and its mask is updated
with the cloud/cloud-shadow test. -/
def maskL8sr (image : Image) : Image :=
  let cloudShadowBitMask : Nat := 1 <<< 3
  let cloudsBitMask : Nat := 1 <<< 5
  let mask := (Nat.land image.qaPixel cloudShadowBitMask == 0)
      && (Nat.land image.qaPixel cloudsBitMask == 0)
  let opticalBands := (image.bands.filter (fun p => matchesOptical p.1)).map
      (fun p => (p.1, p.2 * 0.0000275 + (-0.2)))
  let thermalBands := (image.bands.filter (fun p => matchesThermal p.1)).map
      (fun p => (p.1, p.2 * 0.00341802 + 149.0))
  { qaPixel := image.qaPixel
    bands := opticalBands ++ thermalBands
    maskFlag := image.maskFlag && mask
    timeStart := image.timeStart }

/-- `image.normalizedDifference([b1, b2])`: (b1 - b2) / (b1 + b2). -/
def normalizedDifference (image : Image) (b1 b2 : String) : ℚ :=
  (bv image b1 - bv image b2) / (bv image b1 + bv image b2)

/-- `image.clip(goa)`: restricts the footprint to the region; at a focal
pixel inside the region this is the identity on the band values. -/
def clip (_goa : Region) (image : Image) : Image := image

/-- Lines 145-204 of `src/TrendFire.py`: the nine derived spectral
indices, appended as new bands in source order. The `sqrt` inside the
msavi expression is evaluated remotely over floats; over ℚ we use
`Rat.sqrt` as its stand-in (no claim reads the msavi value). -/
def addIndices (image : Image) : Image :=
  let ndvi := ("ndvi", normalizedDifference image "SR_B5" "SR_B4")
  let evi := ("evi", 2.5 * ((bv image "SR_B5" - bv image "SR_B4") /
      (bv image "SR_B5" + 6 * bv image "SR_B4" - 7.5 * bv image "SR_B2" + 1)))
  let msavi := ("msavi", (2 * bv image "SR_B5" + 1 -
      Rat.sqrt ((2 * bv image "SR_B5" + 1) * (2 * bv image "SR_B5" + 1) -
        8 * (bv image "SR_B5" - bv image "SR_B4"))) / 2)
  let mirbi := ("mirbi", 10 * bv image "SR_B7" - 9.8 * bv image "SR_B6" + 2)
  let ndmi := ("ndmi", normalizedDifference image "SR_B5" "SR_B6")
  let ndfi := ("ndfi", normalizedDifference image "SR_B7" "SR_B5")
  let nbr := ("nbr", normalizedDifference image "SR_B5" "SR_B7")
  let nbr2 := ("nbr2", normalizedDifference image "SR_B6" "SR_B7")
  let bsi := ("bsi", ((bv image "SR_B6" + bv image "SR_B4") -
      (bv image "SR_B5" + bv image "SR_B2")) /
      ((bv image "SR_B6" + bv image "SR_B4") + (bv image "SR_B5" + bv image "SR_B2")))
  addBandsL image [ndvi, evi, msavi, mirbi, ndmi, ndfi, nbr, nbr2, bsi]

/-- Lines 207-234 of `src/TrendFire.py`: the thermal moisture-proxy
formulation `calculateSMI`, normalizing ST_B10 by the min/max of
ST_B10 over the footprint of the image itself. The per-image min and
max are remote `reduceRegion` results and enter as parameters. This
function is defined in the source but never applied to the collection
(see `landsatPipelineMaps`). -/
def calculateSMI (ts_min ts_max : ℚ) (image : Image) : Image :=
  addBandsL image [("smi", (ts_max - bv image "ST_B10") / (ts_max - ts_min))]

/-- Lines 263-267 of `src/TrendFire.py`: the collection-wide SWIR
moisture-proxy formulation `addSMI`, normalizing SR_B7 by the min/max
of the mean composite of SR_B7 over the whole region (remote values,
entering as parameters): smi = (B7 - min)/(max - min) * (-1) + 1. -/
def addSMI (swir_min swir_max : ℚ) (image : Image) : Image :=
  addBandsL image
    [("smi", (bv image "SR_B7" - swir_min) / (swir_max - swir_min) * (-1) + 1)]

/-- The per-image transforms that `process_landsat_trends` maps over
the Landsat collection, in source order: `maskL8sr`, the clipping
lambda and `addIndices` at lines 248-250, then `addSMI` at line 270.
`calculateSMI` (lines 207-234) is defined in the source but appears in
no `map` call and is never invoked. -/
def landsatPipelineMaps : List String :=
  ["maskL8sr", "clip", "addIndices", "addSMI"]

/-- Composition of the per-image transforms applied by
`process_landsat_trends` before band selection: lines 244-250 and 270. -/
def ls8_pipeline (goa : Region) (swir_min swir_max : ℚ) (image : Image) : Image :=
  addSMI swir_min swir_max (addIndices (clip goa (maskL8sr image)))

/-- Line 273 of `src/TrendFire.py`: the bands promoted to the trend
regression. -/
def trend_bands : List String :=
  ["ndvi", "evi", "mirbi", "ndfi", "bsi", "ndmi", "nbr", "nbr2", "msavi", "smi", "ST_B10"]

/-!
Trend output bands. `ee.Reducer.linearFit()` returns an image with two
bands, "scale" (the slope) and "offset" (the intercept); each builder
selects them and renames them. A `TrendBand` records the resulting
band name together with its provenance: which variable band was
regressed and which reducer output was selected.
-/

/-- One output band of a trend regression: its name after `rename`, the
variable band that was regressed against time, and the `linearFit`
output ("scale" or "offset") it was selected from. -/
structure TrendBand where
  name : String
  source : String
  output : String
deriving DecidableEq

/-- Lines 284-303 of `src/TrendFire.py`: the Landsat trend loop. For
each band of `trend_bands`, slope = select "scale" renamed to
`band`_Slope and intercept = select "offset" renamed to
`band`_Intercept, accumulated by `addBands` in loop order. -/
def landsat_all_trends : List TrendBand :=
  trend_bands.foldl
    (fun acc band =>
      acc ++ [{ name := band ++ "_Slope", source := band, output := "scale" },
              { name := band ++ "_Intercept", source := band, output := "offset" }])
    []

/-- Lines 356-360 of `src/TrendFire.py`: the CHIRPS builder regresses
the band "precipitation" and renames the fitted outputs to rain_Slope
and rain_Intercept. -/
def rain_trend : List TrendBand :=
  [{ name := "rain_Slope", source := "precipitation", output := "scale" },
   { name := "rain_Intercept", source := "precipitation", output := "offset" }]

/-- Lines 396-400 of `src/TrendFire.py`: the SMAP builder regresses the
band "soil_moisture_am" and renames the fitted outputs to
sm_surface_Slope and sm_surface_Intercept. -/
def sm_trend : List TrendBand :=
  [{ name := "sm_surface_Slope", source := "soil_moisture_am", output := "scale" },
   { name := "sm_surface_Intercept", source := "soil_moisture_am", output := "offset" }]

/-- Lines 458-462 of `src/TrendFire.py`: the ERA5 builder regresses the
derived band "RH" and renames the fitted outputs to rh_Slope and
rh_Intercept. -/
def rh_trend : List TrendBand :=
  [{ name := "rh_Slope", source := "RH", output := "scale" },
   { name := "rh_Intercept", source := "RH", output := "offset" }]

/-- Lines 476-483 and 566 of `src/TrendFire.py`: the merged multi-band
descriptor, concatenating the four builders in `addBands` order. -/
def merge_trend_layers (ls rain sm rh : List TrendBand) : List TrendBand :=
  ls ++ rain ++ sm ++ rh

/-- The merged descriptor of a full run. -/
def all_trends : List TrendBand :=
  merge_trend_layers landsat_all_trends rain_trend sm_trend rh_trend

/-- Spec-side description of one regression output pair: a slope band
`label`_Slope from the "scale" output and an intercept band
`label`_Intercept from the "offset" output, both regressing `source`. -/
def trendPair (label source : String) : List TrendBand :=
  [{ name := label ++ "_Slope", source := source, output := "scale" },
   { name := label ++ "_Intercept", source := source, output := "offset" }]

/-!
Boundary loading (`get_goa_boundary`, lines 67-117).
-/

/-- A shapely polygon as loaded by geopandas: exterior ring, interior
rings, validity flag and whether a z-dimension is present. -/
structure Geom where
  exterior : List Coord
  interiors : List (List Coord)
  is_valid : Bool
  has_z : Bool
deriving DecidableEq

/-- One feature of the vector file. -/
structure Feature where
  geometry : Geom
deriving DecidableEq

/-- The possible states of the boundary file: absent at the fixed path
(line 111), raising on read (caught inside `debug_shapefile`, which then
returns None, line 62-64), or loaded as a list of features. -/
inductive ShapeSource where
  | missing
  | readError
  | loaded (features : List Feature)
deriving DecidableEq

/-- Line 101 of `src/TrendFire.py`:
`coords_2d = [(x, y) for x, y, z in coords]` — keep the first two
coordinate components of every vertex. -/
def coordsXY (coords : List Coord) : List Coord :=
  coords.map (fun c => c.take 2)

/-- Spec-side description of a ring with the z-dimension stripped: the
(x, y) pair of each vertex, in order. -/
def xyPairs (coords : List Coord) : List Coord :=
  coords.map (fun c => [c.getD 0 0, c.getD 1 0])

/-- Lines 67-117 of `src/TrendFire.py`: load the boundary. Returns the
GeoJSON coordinates of the polygon handed to `ee.Geometry.Polygon`
(exterior ring first, then interior rings), or `none` when the file is
missing, reading fails, the file has no features, or the first
geometry is invalid. Only the first feature (`gdf.geometry.iloc[0]`)
is consulted; when it carries a z-dimension, a fresh 2D polygon is
built from its exterior ring alone. Every failure path of the source
is a caught exception or an early `return None`, so the embedding is a
total function into `Option`. -/
def get_goa_boundary (src : ShapeSource) : Option Region :=
  match src with
  | ShapeSource.missing => none
  | ShapeSource.readError => none
  | ShapeSource.loaded gdf =>
    match gdf with
    | [] => none
    | f :: _ =>
      if f.geometry.is_valid then
        let geometry :=
          if f.geometry.has_z then
            { exterior := coordsXY f.geometry.exterior
              interiors := []
              is_valid := f.geometry.is_valid
              has_z := false : Geom }
          else f.geometry
        some (geometry.exterior :: geometry.interiors)
      else none

/-!
Remote-call trace of a run. Collection loads and export submissions
are reified as actions; the action type also has poll/wait vocabulary
so that "the pipeline never polls or waits on a task" is a statement
about the trace rather than about a type with no such operations.
-/

/-- An asynchronous export task as assembled by `export_to_asset`
(lines 486-504). -/
structure ExportTask where
  description : String
  assetId : String
  region : Region
  scale : ℚ
  maxPixels : ℚ
deriving DecidableEq

/-- Remote calls the local process can issue. -/
inductive EEAction where
  | loadCollection (collectionId : String)
  | startExport (task : ExportTask)
  | pollStatus (task : ExportTask)
  | waitCompleted (task : ExportTask)
deriving DecidableEq

/-- True exactly on the polling/waiting actions, which the pipeline
never issues. -/
def isPollOrWait : EEAction → Bool
  | EEAction.pollStatus _ => true
  | EEAction.waitCompleted _ => true
  | _ => false

/-- Lines 486-504 of `src/TrendFire.py`: build the export task (the
description defaults to the last path segment of the asset name) and
submit it with `task.start()`; the function returns right after the
submission, so its trace is the single `startExport` action. -/
def export_to_asset (asset_name : String) (region : Region)
    (description : Option String) (scale : ℚ) : ExportTask × List EEAction :=
  let descr := description.getD ((asset_name.splitOn "/").getLastD "")
  let task : ExportTask :=
    { description := descr, assetId := asset_name, region := region,
      scale := scale, maxPixels := 10 ^ 13 }
  (task, [EEAction.startExport task])

/-- Remote-call trace of `process_landsat_trends` (lines 237-314):
load the Landsat collection, then export the combined trends. -/
def process_landsat_trends_trace (goa : Region) : List EEAction :=
  EEAction.loadCollection "LANDSAT/LC08/C02/T1_L2" ::
    (export_to_asset "users/jonasnothnagel/Trend2023_landsat" goa
      (some "Landsat_Trends_2023") 30).2

/-- Remote-call trace of `process_chirps_trends` (lines 317-371). -/
def process_chirps_trends_trace (goa : Region) : List EEAction :=
  EEAction.loadCollection "UCSB-CHG/CHIRPS/DAILY" ::
    (export_to_asset "users/jonasnothnagel/Trend2022_rain_new" goa
      (some "Precipitation_Trend_1982_2022") 30).2

/-- Remote-call trace of `process_smap_trends` (lines 374-411). -/
def process_smap_trends_trace (goa : Region) : List EEAction :=
  EEAction.loadCollection "NASA/SMAP/SPL3SMP_E/005" ::
    (export_to_asset "users/jonasnothnagel/Trend2023_SM_new" goa
      (some "SM_Trend2015_2023") 30).2

/-- Remote-call trace of `process_era5_trends` (lines 414-473). -/
def process_era5_trends_trace (goa : Region) : List EEAction :=
  EEAction.loadCollection "ECMWF/ERA5_LAND/MONTHLY_AGGR" ::
    (export_to_asset "users/jonasnothnagel/Trend2024_RH_new" goa
      (some "RH_Trend1980_2023") 30).2

/-- Remote-call trace of `main` after the boundary check (lines
528-589): the four builders in order, then the merged export. When the
boundary is `none`, `main` returns before any builder runs, so the
trace is empty. -/
def main_trace (goa : Option Region) : List EEAction :=
  match goa with
  | none => []
  | some g =>
      process_landsat_trends_trace g ++ process_chirps_trends_trace g ++
      process_smap_trends_trace g ++ process_era5_trends_trace g ++
      (export_to_asset "users/jonasnothnagel/Trend2024_all_new" g
        (some "All_Trends_2024") 30).2

/-- A full run: load the boundary, then execute `main` against it. -/
def run_pipeline (src : ShapeSource) : List EEAction :=
  main_trace (get_goa_boundary src)

/-- The export submissions contained in a trace, in order. -/
def exportsOf (trace : List EEAction) : List ExportTask :=
  trace.filterMap (fun a =>
    match a with
    | EEAction.startExport t => some t
    | _ => none)

/-!
Time bands. Every builder maps an `addTimeBand` over its collection,
computing `ee.Date(system:time_start).difference(ee.Date(ref), "year")`.
The millisecond length of the "year" unit is remote-service behaviour,
modelled from the spec ("elapsed years (fractional, floating point)")
as the average Gregorian year.
-/

/-- Milliseconds in one day. -/
def msPerDay : ℚ := 86400000

/-- Modelled from the spec: the length of the "year" unit used by the
remote `ee.Date.difference`, the average Gregorian year in
milliseconds (365.2425 days). -/
def avgYearMs : ℚ := 365.2425 * msPerDay

/-- `ee.Date(t).difference(ee.Date(ref), "year")`: the fractional
number of years between two epoch-millisecond instants. -/
def dateDiffYears (t ref : ℚ) : ℚ := (t - ref) / avgYearMs

/-- The `addTimeBand` helper shared (textually duplicated) by all four
builders, lines 277-281, 349-351, 389-391 and 452-454: append a "time"
band holding the fractional years since the reference date. -/
def addTimeBand (refDate : ℚ) (image : Image) : Image :=
  addBandsL image [("time", dateDiffYears image.timeStart refDate)]

/-- Epoch milliseconds of 2013-03-20, the Landsat reference date. -/
def landsatEpoch : ℚ := 1363737600000

/-- Epoch milliseconds of 1982-01-01, the CHIRPS reference date. -/
def chirpsEpoch : ℚ := 378691200000

/-- Epoch milliseconds of 2015-04-01, the SMAP reference date. -/
def smapEpoch : ℚ := 1427846400000

/-- Epoch milliseconds of 1980-01-01, the ERA5 reference date. -/
def era5Epoch : ℚ := 315532800000

/-- The four fixed reference start dates of the trend builders. -/
def builderEpochs : List ℚ := [landsatEpoch, chirpsEpoch, smapEpoch, era5Epoch]

/-!
Relative humidity (lines 427-446). The formula runs remotely over
floats; its mathematical content is embedded over the reals.
-/

/-- Lines 427-431 of `src/TrendFire.py`: saturation vapor pressure,
6.112 * exp(19.67 * t / (t + 243.5)). -/
noncomputable def calcVaporPressure (temp : ℝ) : ℝ :=
  6.112 * Real.exp (temp * 19.67 / (temp + 243.5))

/-- Lines 434-446 of `src/TrendFire.py`: relative humidity in percent,
RH = e(dewPoint) / e(temperature) * 100. -/
noncomputable def calculateRH (temperature dewPoint : ℝ) : ℝ :=
  calcVaporPressure dewPoint / calcVaporPressure temperature * 100

/-!
Helper lemmas.
-/

/-- Searching an appended band list skips a prefix that does not carry
the name. -/
theorem find_skip (l₁ l₂ : Bands) (name : String)
    (h : ∀ p ∈ l₁, (p.1 == name) = false) :
    (l₁ ++ l₂).find? (fun p => p.1 == name) = l₂.find? (fun p => p.1 == name) := by
  induction l₁ with
  | nil => rfl
  | cons a l ih =>
      have ha := h a (List.mem_cons_self a l)
      rw [List.cons_append, List.find?_cons_of_neg _ (by simp [ha])]
      exact ih (fun p hp => h p (List.mem_cons_of_mem a hp))

/-- Every band of a masked/scaled image matches the optical or the
thermal band-name pattern. -/
theorem maskL8sr_band_names (image : Image) :
    ∀ q ∈ (maskL8sr image).bands,
      matchesOptical q.1 = true ∨ matchesThermal q.1 = true := by
  intro q hq
  simp only [maskL8sr, List.mem_append, List.mem_map, List.mem_filter] at hq
  rcases hq with ⟨p, ⟨_, hm⟩, rfl⟩ | ⟨p, ⟨_, hm⟩, rfl⟩
  · exact Or.inl hm
  · exact Or.inr hm

/-- No band of a masked/scaled image is named "smi". -/
theorem maskL8sr_no_smi (image : Image) :
    ∀ p ∈ (maskL8sr image).bands, (p.1 == "smi") = false := by
  intro p hp
  rcases maskL8sr_band_names image p hp with h | h
  · cases hbe : (p.1 == "smi") with
    | false => rfl
    | true =>
        have hq : p.1 = "smi" := by simpa using hbe
        rw [hq] at h
        exact absurd h (by decide)
  · cases hbe : (p.1 == "smi") with
    | false => rfl
    | true =>
        have hq : p.1 = "smi" := by simpa using hbe
        rw [hq] at h
        exact absurd h (by decide)

/-- No band produced before `addSMI` in the Landsat per-image pipeline
is named "smi". -/
theorem pipeline_no_smi (goa : Region) (image : Image) :
    ∀ p ∈ (addIndices (clip goa (maskL8sr image))).bands, (p.1 == "smi") = false := by
  intro p hp
  simp only [addIndices, clip, addBandsL, List.mem_append, List.mem_cons,
    List.not_mem_nil, or_false] at hp
  rcases hp with hp | rfl | rfl | rfl | rfl | rfl | rfl | rfl | rfl | rfl
  · exact maskL8sr_no_smi image p hp
  all_goals rfl

/-- Reading back a band just appended to an image that did not carry
its name. -/
theorem getBand_append (image : Image) (name : String) (v : ℚ)
    (h : ∀ p ∈ image.bands, (p.1 == name) = false) :
    getBand (addBandsL image [(name, v)]) name = some v := by
  unfold getBand addBandsL
  simp only
  rw [find_skip image.bands [(name, v)] name h]
  simp [List.find?]

/-- A bitwise test against a single bit position: the conjunction with
`1 <<< i` vanishes exactly when bit `i` is clear. -/
theorem land_shift_eq_zero_iff (qa i : Nat) :
    (Nat.land qa (1 <<< i) = 0) ↔ qa.testBit i = false := by
  have h1 : (1 : Nat) <<< i = 2 ^ i := Nat.one_shiftLeft i
  have h2 : Nat.land qa (2 ^ i) = qa &&& 2 ^ i := rfl
  rw [h1, h2, Nat.and_two_pow qa i]
  cases hb : qa.testBit i with
  | false => simp
  | true =>
      have hpos : 0 < 2 ^ i := pow_pos (by norm_num : (0 : ℕ) < 2) i
      simp only [Bool.toNat_true, one_mul]
      constructor
      · intro h0
        omega
      · intro h0
        cases h0

/-- The value the Landsat per-image pipeline stores in its "smi" band:
the collection-wide SWIR normalization of the (scaled) SR_B7 band. -/
theorem getBand_ls8_pipeline_smi (goa : Region) (swir_min swir_max : ℚ) (image : Image) :
    getBand (ls8_pipeline goa swir_min swir_max image) "smi"
      = some ((bv (addIndices (clip goa (maskL8sr image))) "SR_B7" - swir_min) /
          (swir_max - swir_min) * (-1) + 1) := by
  unfold ls8_pipeline addSMI
  exact getBand_append _ _ _ (pipeline_no_smi goa image)

/-!
Claim theorems.
-/

/-- C1 (counterexample to the claim as stated): the claim asserts that
both moisture-proxy formulations are computed, but `calculateSMI` is
not among the transforms the Landsat pipeline applies — it is defined
at lines 207-234 and never invoked, so the thermal formulation is
never computed in a run. -/
theorem calculateSMI_never_applied :
    "calculateSMI" ∉ landsatPipelineMaps := by decide

/-- C1 (amended): two moisture-proxy formulations exist in the source,
but only the collection-wide SWIR one (`addSMI`) is ever applied; the
thermal one (`calculateSMI`) is dead code. The "smi" band promoted to
the trend regression (it is listed in `trend_bands`) holds exactly
1 - (SR_B7 - swir_min) / (swir_max - swir_min). -/
theorem smi_promoted_is_collection_swir (goa : Region) (image : Image)
    (swir_min swir_max ts_min ts_max : ℚ) :
    getBand (ls8_pipeline goa swir_min swir_max image) "smi"
      = some (1 - (bv (addIndices (clip goa (maskL8sr image))) "SR_B7" - swir_min) /
          (swir_max - swir_min)) ∧
    "smi" ∈ trend_bands ∧
    (calculateSMI ts_min ts_max image).bands
      = image.bands ++ [("smi", (ts_max - bv image "ST_B10") / (ts_max - ts_min))] ∧
    "addSMI" ∈ landsatPipelineMaps ∧ "calculateSMI" ∉ landsatPipelineMaps := by
  refine ⟨?_, by decide, rfl, by decide, by decide⟩
  rw [getBand_ls8_pipeline_smi]
  congr 1
  ring

/-- C1 witness: the amended characterization evaluated at a concrete
image and concrete collection statistics. -/
theorem smi_promoted_witness :
    getBand (ls8_pipeline []
        ((0 : ℚ) - 0.2) ((1 : ℚ) * 0.0000275 - 0.2)
        { qaPixel := 0, bands := [("SR_B7", 1)], maskFlag := true, timeStart := 0 }) "smi"
      = some (1 - (bv (addIndices (clip [] (maskL8sr
          { qaPixel := 0, bands := [("SR_B7", 1)], maskFlag := true, timeStart := 0 }))) "SR_B7"
            - ((0 : ℚ) - 0.2)) / (((1 : ℚ) * 0.0000275 - 0.2) - ((0 : ℚ) - 0.2))) :=
  (smi_promoted_is_collection_swir [] _ _ _ 0 1).1

/-- C2 (counterexample to the claim as stated): the precipitation
builder regresses the variable band "precipitation", yet its output
bands are named rain_Slope and rain_Intercept — there is no band named
precipitation_Slope, so the pattern "regressed variable + _Slope"
fails for this builder. -/
theorem rain_trend_not_named_after_variable :
    rain_trend.map TrendBand.source = ["precipitation", "precipitation"] ∧
    rain_trend.map TrendBand.name = ["rain_Slope", "rain_Intercept"] ∧
    "precipitation" ++ "_Slope" ∉ rain_trend.map TrendBand.name := by decide

/-- C2 (amended): in the Landsat builder every regressed band v yields
exactly the pair v_Slope / v_Intercept (slope from the "scale" output
of the reducer, intercept from its "offset" output); the
precipitation, soil-moisture and humidity builders each yield one such
pair whose name label (rain, sm_surface, rh) is a fixed constant
differing from the regressed band name (precipitation,
soil_moisture_am, RH); the merged descriptor obtained by concatenating
the four builders has zero duplicate band names. -/
theorem trend_band_naming :
    landsat_all_trends = trend_bands.flatMap (fun b => trendPair b b) ∧
    rain_trend = trendPair "rain" "precipitation" ∧
    sm_trend = trendPair "sm_surface" "soil_moisture_am" ∧
    rh_trend = trendPair "rh" "RH" ∧
    all_trends = landsat_all_trends ++ rain_trend ++ sm_trend ++ rh_trend ∧
    (all_trends.map TrendBand.name).Nodup := by decide

/-- C7: the cloud-masking/scaling transform keeps a pixel exactly when
QA_PIXEL bits 3 (cloud shadow) and 5 (cloud) are both clear, maps
every optical band SR_B? through v * 0.0000275 - 0.2 and every thermal
band ST_B* through v * 0.00341802 + 149.0; it is a pure per-image map
(a function of the single image). -/
theorem maskL8sr_masks_and_scales (image : Image) (b : String) (v : ℚ)
    (hmem : (b, v) ∈ image.bands) :
    ((maskL8sr image).maskFlag = true ↔
       image.maskFlag = true ∧ image.qaPixel.testBit 3 = false ∧
         image.qaPixel.testBit 5 = false) ∧
    (matchesOptical b = true → (b, v * 0.0000275 - 0.2) ∈ (maskL8sr image).bands) ∧
    (matchesThermal b = true → (b, v * 0.00341802 + 149.0) ∈ (maskL8sr image).bands) := by
  refine ⟨?_, ?_, ?_⟩
  · show (image.maskFlag && ((Nat.land image.qaPixel (1 <<< 3) == 0)
        && (Nat.land image.qaPixel (1 <<< 5) == 0))) = true ↔ _
    rw [Bool.and_eq_true, Bool.and_eq_true, beq_iff_eq, beq_iff_eq,
      land_shift_eq_zero_iff, land_shift_eq_zero_iff]
  · intro hopt
    rw [show v * 0.0000275 - 0.2 = v * 0.0000275 + (-0.2) by ring]
    simp only [maskL8sr]
    exact List.mem_append_left _ (List.mem_map_of_mem _ (List.mem_filter.mpr ⟨hmem, hopt⟩))
  · intro hth
    simp only [maskL8sr]
    exact List.mem_append_right _ (List.mem_map_of_mem _ (List.mem_filter.mpr ⟨hmem, hth⟩))

/-- A concrete Landsat image with one optical and one thermal band,
used to evaluate the masking transform. -/
def sampleLandsatImage : Image :=
  { qaPixel := 0, bands := [("SR_B7", 1000), ("ST_B10", 2000)],
    maskFlag := true, timeStart := 0 }

/-- C7 witness: the transform evaluated on a concrete image carrying
one optical band. -/
theorem maskL8sr_witness :
    ("SR_B7", (1000 : ℚ) * 0.0000275 - 0.2) ∈ (maskL8sr sampleLandsatImage).bands :=
  (maskL8sr_masks_and_scales sampleLandsatImage "SR_B7" 1000 (by decide)).2.1 (by decide)

/-- C3: a full run with a boundary submits exactly five export tasks —
Landsat, precipitation, soil moisture, relative humidity, merged — in
that order, each to its fixed asset identifier, each with the loaded
boundary as region and scale 30; every action of the run is a
collection load or a fire-and-forget `startExport`, never a poll or a
wait on task status. -/
theorem main_submits_five_exports (g : Region) :
    (exportsOf (main_trace (some g))).map (fun t => (t.assetId, t.scale)) =
      [("users/jonasnothnagel/Trend2023_landsat", 30),
       ("users/jonasnothnagel/Trend2022_rain_new", 30),
       ("users/jonasnothnagel/Trend2023_SM_new", 30),
       ("users/jonasnothnagel/Trend2024_RH_new", 30),
       ("users/jonasnothnagel/Trend2024_all_new", 30)] ∧
    (∀ t ∈ exportsOf (main_trace (some g)), t.region = g) ∧
    (∀ a ∈ main_trace (some g), isPollOrWait a = false) := by
  refine ⟨rfl, ?_, ?_⟩
  · intro t ht
    simp only [main_trace, process_landsat_trends_trace, process_chirps_trends_trace,
      process_smap_trends_trace, process_era5_trends_trace, export_to_asset, exportsOf,
      List.filterMap, List.cons_append, List.nil_append, List.mem_cons,
      List.not_mem_nil, or_false] at ht
    rcases ht with rfl | rfl | rfl | rfl | rfl <;> rfl
  · intro a ha
    simp only [main_trace, process_landsat_trends_trace, process_chirps_trends_trace,
      process_smap_trends_trace, process_era5_trends_trace, export_to_asset,
      List.cons_append, List.nil_append, List.mem_cons,
      List.not_mem_nil, or_false] at ha
    rcases ha with rfl | rfl | rfl | rfl | rfl | rfl | rfl | rfl | rfl <;> rfl

/-- C3 witness: the submitted asset identifiers and scales of a run on
a concrete region. -/
theorem main_submits_five_exports_witness :
    (exportsOf (main_trace (some ([[[0, 0], [1, 0], [1, 1], [0, 0]]] : Region)))).map
        (fun t => (t.assetId, t.scale)) =
      [("users/jonasnothnagel/Trend2023_landsat", 30),
       ("users/jonasnothnagel/Trend2022_rain_new", 30),
       ("users/jonasnothnagel/Trend2023_SM_new", 30),
       ("users/jonasnothnagel/Trend2024_RH_new", 30),
       ("users/jonasnothnagel/Trend2024_all_new", 30)] :=
  (main_submits_five_exports [[[0, 0], [1, 0], [1, 1], [0, 0]]]).1

/-- C6: when the boundary loader yields the no-boundary outcome, the
top-level run stops at its check: the remote-call trace is empty — no
collection is loaded, no trend is computed, no export is submitted. -/
theorem no_boundary_aborts_run (src : ShapeSource)
    (h : get_goa_boundary src = none) :
    run_pipeline src = [] := by
  unfold run_pipeline
  rw [h]
  rfl

/-- C6 witness: a run against a missing boundary file does nothing. -/
theorem no_boundary_aborts_run_witness :
    run_pipeline ShapeSource.missing = [] :=
  no_boundary_aborts_run ShapeSource.missing rfl

/-- C4: when the first feature of the file is a single valid polygon
the loader returns exactly its rings coordinates in order; when the
geometry carries a z-dimension (each vertex holding three components)
the returned polygon is the single exterior ring reduced to the (x, y)
pair of each vertex, in order, with no z-component left. -/
theorem boundary_ring_exact (f : Feature) (rest : List Feature)
    (hvalid : f.geometry.is_valid = true) :
    (f.geometry.has_z = false →
       get_goa_boundary (ShapeSource.loaded (f :: rest)) =
         some (f.geometry.exterior :: f.geometry.interiors)) ∧
    (f.geometry.has_z = true →
       (∀ c ∈ f.geometry.exterior, c.length = 3) →
       get_goa_boundary (ShapeSource.loaded (f :: rest)) =
         some [xyPairs f.geometry.exterior] ∧
       ∀ c ∈ coordsXY f.geometry.exterior, c.length = 2) := by
  constructor
  · intro hz
    simp [get_goa_boundary, hvalid, hz]
  · intro hz h3
    have hxy : coordsXY f.geometry.exterior = xyPairs f.geometry.exterior := by
      unfold coordsXY xyPairs
      refine List.map_congr_left ?_
      intro c hc
      have hlen := h3 c hc
      match c, hlen with
      | [x, y, z], _ => rfl
    constructor
    · simp [get_goa_boundary, hvalid, hz, hxy]
    · intro c hc
      rw [hxy] at hc
      simp only [xyPairs, List.mem_map] at hc
      rcases hc with ⟨d, _, rfl⟩
      rfl

/-- A concrete first feature whose polygon carries a z-dimension. -/
def feature3D : Feature :=
  { geometry :=
    { exterior := [[0, 0, 7], [1, 0, 7], [1, 1, 7], [0, 0, 7]],
      interiors := [], is_valid := true, has_z := true } }

/-- C4 witness: the loader evaluated on a concrete 3D feature. -/
theorem boundary_ring_exact_witness :
    get_goa_boundary (ShapeSource.loaded [feature3D]) =
      some [xyPairs feature3D.geometry.exterior] :=
  ((boundary_ring_exact feature3D [] (by decide)).2 (by decide) (by decide)).1

/-- C5: every failure input — missing file, read error, empty feature
set, invalid first geometry — yields the defined no-boundary outcome
`none`; the loader never raises (every failure path of the source is a
caught exception or an early return, which is why its embedding is a
total function into `Option`). -/
theorem boundary_failures_yield_none (src : ShapeSource)
    (h : src = ShapeSource.missing ∨ src = ShapeSource.readError ∨
         src = ShapeSource.loaded [] ∨
         ∃ f rest, src = ShapeSource.loaded (f :: rest) ∧ f.geometry.is_valid = false) :
    get_goa_boundary src = none := by
  rcases h with rfl | rfl | rfl | ⟨f, rest, rfl, hf⟩
  · rfl
  · rfl
  · rfl
  · simp [get_goa_boundary, hf]

/-- A concrete feature whose geometry is invalid. -/
def featureInvalid : Feature :=
  { geometry :=
    { exterior := [[0, 0], [1, 1], [1, 0], [0, 1], [0, 0]],
      interiors := [], is_valid := false, has_z := false } }

/-- C5 witness: a file whose first geometry is invalid loads to the
no-boundary outcome. -/
theorem boundary_failures_yield_none_witness :
    get_goa_boundary (ShapeSource.loaded [featureInvalid]) = none :=
  boundary_failures_yield_none (ShapeSource.loaded [featureInvalid])
    (Or.inr (Or.inr (Or.inr ⟨featureInvalid, [], rfl, by decide⟩)))

/-- C10: the loader consults only the first feature — appending further
features never changes the result — and in the z-dimension branch the
constructed 2D polygon consists of the exterior ring alone: interior
rings of the first geometry are dropped. -/
theorem boundary_first_feature_only (f : Feature) (rest : List Feature) :
    get_goa_boundary (ShapeSource.loaded (f :: rest)) =
      get_goa_boundary (ShapeSource.loaded [f]) ∧
    (f.geometry.is_valid = true → f.geometry.has_z = true →
       get_goa_boundary (ShapeSource.loaded (f :: rest)) =
         some [coordsXY f.geometry.exterior]) := by
  constructor
  · rfl
  · intro hvalid hz
    simp [get_goa_boundary, hvalid, hz]

/-- A concrete 3D feature with an interior ring, and a second feature;
only the first exterior ring survives loading. -/
def featureWithHole : Feature :=
  { geometry :=
    { exterior := [[0, 0, 1], [4, 0, 1], [4, 4, 1], [0, 0, 1]],
      interiors := [[[1, 1, 1], [2, 1, 1], [2, 2, 1], [1, 1, 1]]],
      is_valid := true, has_z := true } }

/-- C10 witness: with a second feature present and a hole in the first
geometry, the loader returns only the 2D exterior ring of the first
feature. -/
theorem boundary_first_feature_only_witness :
    get_goa_boundary (ShapeSource.loaded [featureWithHole, feature3D]) =
      some [coordsXY featureWithHole.geometry.exterior] :=
  (boundary_first_feature_only featureWithHole [feature3D]).2 (by decide) (by decide)

/-- C9: every trend builder attaches a scalar "time" band holding the
fractional elapsed years between the system:time_start of an image and
the fixed reference start date of the builder; for an image timestamped
exactly one calendar year (365 or 366 days) after the reference date,
the attached value is 1.0 up to a fractional tolerance of 1/200. -/
theorem addTimeBand_elapsed_years (refDate : ℚ) (image : Image)
    (href : refDate ∈ builderEpochs)
    (hclean : ∀ p ∈ image.bands, (p.1 == "time") = false)
    (d : ℚ) (hd : d = 365 ∨ d = 366)
    (ht : image.timeStart = refDate + d * msPerDay) :
    getBand (addTimeBand refDate image) "time"
      = some (dateDiffYears image.timeStart refDate) ∧
    |dateDiffYears image.timeStart refDate - 1| < 1 / 200 := by
  constructor
  · unfold addTimeBand
    exact getBand_append image "time" _ hclean
  · unfold dateDiffYears
    rw [ht, show refDate + d * msPerDay - refDate = d * msPerDay by ring]
    rcases hd with rfl | rfl <;>
      rw [abs_lt] <;> constructor <;>
      norm_num [msPerDay, avgYearMs]

/-- A concrete yearly-sum image timestamped exactly 365 days after the
CHIRPS reference date. -/
def sampleYearImage : Image :=
  { qaPixel := 0, bands := [("precipitation", 2900)], maskFlag := true,
    timeStart := chirpsEpoch + 365 * msPerDay }

/-- C9 witness: the time band of a concrete image one calendar year
after the CHIRPS reference date. -/
theorem addTimeBand_elapsed_years_witness :
    getBand (addTimeBand chirpsEpoch sampleYearImage) "time"
      = some (dateDiffYears sampleYearImage.timeStart chirpsEpoch) ∧
    |dateDiffYears sampleYearImage.timeStart chirpsEpoch - 1| < 1 / 200 :=
  addTimeBand_elapsed_years chirpsEpoch sampleYearImage (by decide)
    (by decide) 365 (Or.inl rfl) rfl

/-- The saturation vapor pressure of the source formula is positive. -/
theorem calcVaporPressure_pos (t : ℝ) : 0 < calcVaporPressure t := by
  unfold calcVaporPressure
  positivity

/-- The saturation vapor pressure is strictly monotone above -243.5. -/
theorem calcVaporPressure_lt (t1 t2 : ℝ) (h1 : -243.5 < t1) (h2 : -243.5 < t2)
    (hlt : t1 < t2) : calcVaporPressure t1 < calcVaporPressure t2 := by
  unfold calcVaporPressure
  have d1 : (0 : ℝ) < t1 + 243.5 := by linarith
  have d2 : (0 : ℝ) < t2 + 243.5 := by linarith
  have harg : t1 * 19.67 / (t1 + 243.5) < t2 * 19.67 / (t2 + 243.5) := by
    rw [div_lt_div_iff₀ d1 d2]
    nlinarith
  have hexp := Real.exp_lt_exp.mpr harg
  linarith

/-- C8: with both temperatures above the -243.5 pole of the formula,
saturation (dew point equal to temperature, in particular 25 and 25)
gives a relative humidity of exactly 100 because the two vapor
pressures coincide, and a dew point strictly below the temperature
gives a relative humidity strictly below 100, by strict monotonicity
of the vapor-pressure function. -/
theorem calculateRH_saturation (temperature dewPoint : ℝ)
    (hT : -243.5 < temperature) (hTd : -243.5 < dewPoint) :
    (dewPoint = temperature → calculateRH temperature dewPoint = 100) ∧
    (dewPoint < temperature → calculateRH temperature dewPoint < 100) := by
  constructor
  · intro he
    subst he
    unfold calculateRH
    rw [div_self (ne_of_gt (calcVaporPressure_pos dewPoint))]
    norm_num
  · intro hlt
    have hm := calcVaporPressure_lt dewPoint temperature hTd hT hlt
    have hp := calcVaporPressure_pos temperature
    unfold calculateRH
    have hr : calcVaporPressure dewPoint / calcVaporPressure temperature < 1 :=
      (div_lt_one hp).mpr hm
    linarith

/-- C8 witness: relative humidity at temperature 25 with dew point 25
is exactly 100, and with dew point 24 it is strictly below 100. -/
theorem calculateRH_saturation_witness :
    calculateRH 25 25 = 100 ∧ calculateRH 25 24 < 100 :=
  ⟨(calculateRH_saturation 25 25 (by norm_num) (by norm_num)).1 rfl,
   (calculateRH_saturation 25 24 (by norm_num) (by norm_num)).2 (by norm_num)⟩

end TrendFire
